import Mathlib

/-!
Verification of the race-strategy GPS course-analysis engine.

Shallow embedding of the core of the repository:
  * `src/utils/gps_parser.py`   — track ingestion, smoothing, gradient
    calculation, climb detection, coordinate validation, quality metadata;
  * `src/utils/course_analyzer.py` — difficulty metrics and course comparison;
  * `src/utils/data_validator.py`  — the eight-check data-quality validator.

Python floats are modelled as exact rationals (`ℚ`), Python `int` as `ℤ`/`ℕ`,
`None`-able values as `Option`, and code that can raise as `Except`.
`statistics.stdev` (a square root, hence irrational) is an external standard
library function; the difficulty calculator is parametrised over it, and the
theorems that need anything from it assume only its nonnegativity.
-/

namespace RaceStrategy

/-- Model of `src/models/course.py` `GPSPoint`. -/
structure GPSPoint where
  latitude : ℚ
  longitude : ℚ
  elevation_ft : ℚ
  distance_miles : ℚ
  gradient_percent : Option ℚ := none
  deriving DecidableEq, Repr

/-- Model of `src/models/course.py` `ClimbSegment`.  The `name` field (a
formatted string `f"Climb at mile {start_mile:.1f}"`) is not modelled: no
claim depends on it. -/
structure ClimbSegment where
  start_mile : ℚ
  length_miles : ℚ
  avg_grade : ℚ
  max_grade : ℚ
  elevation_gain_ft : ℤ
  start_coords : Option (ℚ × ℚ) := none
  end_coords : Option (ℚ × ℚ) := none
  gps_points : List GPSPoint := []
  deriving DecidableEq, Repr

/-- Model of `src/models/course.py` `GPSMetadata`.  `source_file`, `smoothed`
and `parsed_at` (a wall-clock timestamp) are not modelled. -/
structure GPSMetadata where
  total_points : ℕ := 0
  missing_elevation_points : ℕ := 0
  data_quality_score : ℚ := 0
  bounds : Option (ℚ × ℚ × ℚ × ℚ) := none
  invalid_latitude_points : ℕ := 0
  invalid_longitude_points : ℕ := 0
  invalid_elevation_points : ℕ := 0
  large_distance_jumps : ℕ := 0
  total_validation_errors : ℕ := 0
  deriving DecidableEq, Repr

/-- Model of `src/models/course.py` `CourseProfile` (the fields consumed by
the analysis engine; `surface_types` is unused by every component). -/
structure CourseProfile where
  name : String
  bike_distance_miles : ℚ
  bike_elevation_gain_ft : ℤ
  swim_distance_miles : ℚ := 0
  run_distance_miles : ℚ := 0
  run_elevation_gain_ft : ℤ := 0
  key_climbs : List ClimbSegment
  technical_sections : List String
  altitude_ft : ℤ := 0
  gps_metadata : Option GPSMetadata := none
  elevation_profile : List GPSPoint := []
  start_coords : Option (ℚ × ℚ) := none
  finish_coords : Option (ℚ × ℚ) := none
  deriving DecidableEq, Repr

/-- A raw GPX track point as consumed by the parser (`gpxpy` point with
latitude, longitude and optional elevation in meters). -/
structure RawTrackPoint where
  latitude : ℚ
  longitude : ℚ
  elevation : Option ℚ := none
  deriving DecidableEq, Repr

/-- Model of `src/utils/gps_parser.py` `GPSParserConfig` (numeric fields). -/
structure GPSParserConfig where
  min_climb_grade : ℚ := 3
  min_climb_distance : ℚ := 1/2
  descent_threshold : ℚ := -8
  min_descent_length : ℚ := 1/5
  smoothing_window : ℕ := 5
  quality_penalty_factor : ℚ := 50
  descent_continuation_threshold : ℚ := -3
  min_latitude : ℚ := -90
  max_latitude : ℚ := 90
  min_longitude : ℚ := -180
  max_longitude : ℚ := 180
  min_elevation_ft : ℚ := -1000
  max_elevation_ft : ℚ := 30000
  max_distance_jump_miles : ℚ := 1
  coordinate_validation_penalty : ℚ := 20
  deriving DecidableEq, Repr

/-- The default configuration (`GPSParserConfig()` in Python). -/
def defaultConfig : GPSParserConfig := {}

/-- Mean of a list of rationals (`statistics.mean`; call sites guard
against the empty list exactly as the Python call sites do). -/
def listMean (l : List ℚ) : ℚ := l.sum / l.length

/-- Python `max(l)` over a nonempty list (0 for the empty list, which no
call site reaches). -/
def listMax (l : List ℚ) : ℚ :=
  match l with
  | [] => 0
  | x :: xs => xs.foldl max x

/-- Python `min(l)` over a nonempty list. -/
def listMin (l : List ℚ) : ℚ :=
  match l with
  | [] => 0
  | x :: xs => xs.foldl min x

instance : Inhabited GPSPoint := ⟨⟨0, 0, 0, 0, none⟩⟩

/-! ## Smoothing and gradient engine (`GPSParser._smooth_data`,
`GPSParser._calculate_gradients`) -/

/-- `GPSParser._smooth_data`: centered moving average with truncated window
edges; data shorter than the window is returned unsmoothed. -/
def smooth_data (data : List ℚ) (window : ℕ) : List ℚ :=
  if data.length < window then data
  else
    (List.range data.length).map (fun i =>
      let start_idx := i - window / 2
      let end_idx := min data.length (i + window / 2 + 1)
      let window_data := (data.drop start_idx).take (end_idx - start_idx)
      window_data.sum / window_data.length)

/-- The elevation series actually used for gradients: the raw elevations,
smoothed when `smoothing_window > 1` (`_calculate_gradients` lines 318-321). -/
def gradientElevations (pts : List GPSPoint) (window : ℕ) : List ℚ :=
  let elevations := pts.map (·.elevation_ft)
  if 1 < window then smooth_data elevations window else elevations

/-- `GPSParser._calculate_gradients`: annotates each point (from index 1 on)
whose distance difference to its predecessor is positive with
`(elev[i] - elev[i-1]) / (distance_diff * 5280) * 100` over the (possibly
smoothed) elevation series; other points keep their incoming gradient.
The Python method mutates the list in place; the model returns the updated
list. -/
def calculate_gradients (pts : List GPSPoint) (window : ℕ) : List GPSPoint :=
  if pts.length < 2 then pts
  else
    let elev := gradientElevations pts window
    (List.range pts.length).map (fun i =>
      let p := pts.getD i default
      if i = 0 then p
      else
        let distance_diff := p.distance_miles - (pts.getD (i-1) default).distance_miles
        let elevation_diff := elev.getD i 0 - elev.getD (i-1) 0
        if 0 < distance_diff then
          { p with gradient_percent := some (elevation_diff / (distance_diff * 5280) * 100) }
        else p)

/-! ## Climb detector (`GPSParser._detect_climbs`) -/

/-- The in-progress climb accumulator (the `current_climb` dict). -/
structure ClimbState where
  start_idx : ℕ
  start_mile : ℚ
  start_elevation : ℚ
  max_grade : ℚ
  grades : List ℚ
  deriving DecidableEq, Repr

/-- Build the emitted `ClimbSegment` (lines 379-403 of `gps_parser.py`).
Python's `int(max(0, elevation_gain))` truncates toward zero, which on the
nonnegative argument is the floor. -/
def mkClimbSegment (pts : List GPSPoint) (c : ClimbState) (i : ℕ) (point : GPSPoint) :
    ClimbSegment :=
  { start_mile := c.start_mile
    length_miles := point.distance_miles - c.start_mile
    avg_grade := listMean c.grades
    max_grade := c.max_grade
    elevation_gain_ft := ⌊max 0 (point.elevation_ft - c.start_elevation)⌋
    start_coords := some ((pts.getD c.start_idx default).latitude,
                          (pts.getD c.start_idx default).longitude)
    end_coords := some (point.latitude, point.longitude)
    gps_points := (pts.drop c.start_idx).take (i + 1 - c.start_idx) }

/-- One iteration of the `_detect_climbs` scan.  The branch structure mirrors
the Python `if`/`elif` chain exactly, including the `i == len(gps_points)-1`
disjunct of the emission branch (which is unreachable there, because a point
with `gradient_percent >= 0` is consumed by the continuation branch first).
`point.gradient_percent or 0` in the continuation branch equals the gradient
itself (`g or 0 == g` for `g == 0.0` too). -/
def detectClimbsStep (min_climb_grade min_climb_distance : ℚ) (pts : List GPSPoint)
    (acc : List ClimbSegment × Option ClimbState) (ip : ℕ × GPSPoint) :
    List ClimbSegment × Option ClimbState :=
  let (climbs, current_climb) := acc
  let (i, point) := ip
  match point.gradient_percent with
  | none => (climbs, current_climb)
  | some g =>
    match current_climb with
    | none =>
      if min_climb_grade ≤ g then
        (climbs, some ⟨i, point.distance_miles, point.elevation_ft, g, [g]⟩)
      else (climbs, none)
    | some c =>
      if 0 ≤ g then
        (climbs, some { c with max_grade := max c.max_grade g, grades := c.grades ++ [g] })
      else if g < 0 ∨ i = pts.length - 1 then
        let climb_length := point.distance_miles - c.start_mile
        if min_climb_distance ≤ climb_length then
          (climbs ++ [mkClimbSegment pts c i point], none)
        else (climbs, none)
      else (climbs, current_climb)

/-- `GPSParser._detect_climbs`: single left-to-right scan over the
gradient-annotated points. -/
def detect_climbs (min_climb_grade min_climb_distance : ℚ)
    (pts : List GPSPoint) : List ClimbSegment :=
  (pts.enum.foldl (detectClimbsStep min_climb_grade min_climb_distance pts)
    ([], none)).1

/-! ## Coordinate validation and quality metadata
(`GPSParser._is_coordinate_valid`, `_validate_single_point`,
`_validate_distance_jumps`, `_validate_coordinates`, `_generate_metadata`) -/

/-- `GPSParser._is_coordinate_valid`. -/
def is_coordinate_valid (value min_val max_val : ℚ) : Bool :=
  min_val ≤ value ∧ value ≤ max_val

/-- Per-point validation error flags (the `errors` dict of
`_validate_single_point`). -/
structure PointErrors where
  invalid_latitude : ℕ
  invalid_longitude : ℕ
  invalid_elevation : ℕ
  deriving DecidableEq, Repr

/-- `GPSParser._validate_single_point`: latitude/longitude bounds, elevation
bounds (only when the raw point carries an elevation), and the `(0, 0)`
GPS-loss special case, which overwrites both coordinate flags with 1. -/
def validate_single_point (config : GPSParserConfig) (gps_point : GPSPoint)
    (track_point : RawTrackPoint) : PointErrors :=
  let lat_err : ℕ :=
    if is_coordinate_valid gps_point.latitude config.min_latitude config.max_latitude
    then 0 else 1
  let lon_err : ℕ :=
    if is_coordinate_valid gps_point.longitude config.min_longitude config.max_longitude
    then 0 else 1
  let elev_err : ℕ :=
    if track_point.elevation.isSome ∧
        ¬ is_coordinate_valid gps_point.elevation_ft config.min_elevation_ft
            config.max_elevation_ft
    then 1 else 0
  if |gps_point.latitude| < 1/10000 ∧ |gps_point.longitude| < 1/10000 then
    ⟨1, 1, elev_err⟩
  else ⟨lat_err, lon_err, elev_err⟩

/-- `GPSParser._validate_distance_jumps`: count adjacent pairs whose distance
difference exceeds `max_distance_jump_miles`. -/
def validate_distance_jumps (config : GPSParserConfig) (gps_points : List GPSPoint) : ℕ :=
  ((gps_points.zip gps_points.tail).filter (fun ab =>
    decide (config.max_distance_jump_miles <
      ab.2.distance_miles - ab.1.distance_miles))).length

/-- Aggregated validation counters (the `validation_results` dict of
`_validate_coordinates`). -/
structure ValidationCounts where
  invalid_latitude_points : ℕ
  invalid_longitude_points : ℕ
  invalid_elevation_points : ℕ
  large_distance_jumps : ℕ
  total_validation_errors : ℕ
  deriving DecidableEq, Repr

/-- `GPSParser._validate_coordinates`: per-point flags summed over
`zip(gps_points, track_points)` (zip truncates to the shorter list), plus the
distance-jump count; the total is the sum of the four counters. -/
def validate_coordinates (config : GPSParserConfig) (gps_points : List GPSPoint)
    (track_points : List RawTrackPoint) : ValidationCounts :=
  let point_errors := (gps_points.zip track_points).map (fun pt =>
    validate_single_point config pt.1 pt.2)
  let lat := (point_errors.map (·.invalid_latitude)).sum
  let lon := (point_errors.map (·.invalid_longitude)).sum
  let elev := (point_errors.map (·.invalid_elevation)).sum
  let jumps := validate_distance_jumps config gps_points
  ⟨lat, lon, elev, jumps, lat + lon + elev + jumps⟩

/-- `GPSParser._generate_metadata` (minus `source_file`/`parsed_at`): counts
missing elevations, runs coordinate validation, computes the quality score
(`100`, minus the missing-elevation ratio times `quality_penalty_factor`,
minus — only when there is at least one validation error — the
validation-error ratio times `coordinate_validation_penalty`, clamped at 0;
all of that only when the track is nonempty), and the coordinate bounds. -/
def generate_metadata (config : GPSParserConfig) (gps_points : List GPSPoint)
    (track_points : List RawTrackPoint) : GPSMetadata :=
  let missing_elevation := (track_points.filter (·.elevation.isNone)).length
  let validation_results := validate_coordinates config gps_points track_points
  let quality_score : ℚ :=
    if track_points.isEmpty then 100
    else
      let missing_ratio : ℚ := (missing_elevation : ℚ) / track_points.length
      let s1 := 100 - missing_ratio * config.quality_penalty_factor
      let s2 :=
        if 0 < validation_results.total_validation_errors then
          let validation_ratio : ℚ :=
            (validation_results.total_validation_errors : ℚ) / track_points.length
          s1 - validation_ratio * config.coordinate_validation_penalty
        else s1
      max 0 s2
  let bounds : Option (ℚ × ℚ × ℚ × ℚ) :=
    if gps_points.isEmpty then none
    else some (listMin (gps_points.map (·.latitude)),
               listMax (gps_points.map (·.latitude)),
               listMin (gps_points.map (·.longitude)),
               listMax (gps_points.map (·.longitude)))
  { total_points := track_points.length
    missing_elevation_points := missing_elevation
    data_quality_score := quality_score
    bounds := bounds
    invalid_latitude_points := validation_results.invalid_latitude_points
    invalid_longitude_points := validation_results.invalid_longitude_points
    invalid_elevation_points := validation_results.invalid_elevation_points
    large_distance_jumps := validation_results.large_distance_jumps
    total_validation_errors := validation_results.total_validation_errors }

/-! ## Track ingestor error behaviour (`GPSParser.parse_gpx_file`,
lines 140-163)

The Python method raises `ValueError` in three distinct situations; the
specification names the resulting failure modes `ParseError` (malformed
container: `gpxpy.parse` failed, or `gpx.tracks` empty) and
`EmptyTrackError` (no track points).  `FileNotFoundError` concerns the file
path, before any track container exists, and is outside the modelled input.
On success the collected track points flow into `_process_track_points`;
the model returns them. -/

/-- A GPX track container: a list of tracks, each a list of segments, each a
list of raw points — or a container that `gpxpy.parse` rejects. -/
inductive GPXInput where
  | malformed
  | parsed (tracks : List (List (List RawTrackPoint)))
  deriving DecidableEq, Repr

/-- The spec's two fatal ingestor failure modes. -/
inductive IngestError where
  | parseError
  | emptyTrack
  deriving DecidableEq, Repr

/-- All points of all segments of all tracks, in document order
(the `track_points.extend(segment.points)` double loop). -/
def collectTrackPoints (tracks : List (List (List RawTrackPoint))) : List RawTrackPoint :=
  (tracks.map (fun track => track.flatten)).flatten

/-- The fallible head of `GPSParser.parse_gpx_file`: `ValueError("Invalid GPX
file format")` for a malformed container, `ValueError("No tracks found in GPX
file")` for an empty track list, `ValueError("No track points found in GPX
file")` for an empty point list; otherwise the extracted points. -/
def ingest (input : GPXInput) : Except IngestError (List RawTrackPoint) :=
  match input with
  | .malformed => .error .parseError
  | .parsed tracks =>
    if tracks.isEmpty then .error .parseError
    else
      let track_points := collectTrackPoints tracks
      if track_points.isEmpty then .error .emptyTrack
      else .ok track_points

/-! ## String utilities used by the difficulty calculator

`_calculate_technical_difficulty` applies `"descent" in section.lower()`,
`"%" in section`, keyword containment, and
`re.search(r"[-]?(\d+(?:\.\d+)?)\s*%", section)` to each technical-section
descriptor.  Substring containment and a faithful simulation of that one
regex (leftmost match; the group excludes the sign, and `abs` is applied) are
defined here over `List Char`. -/

/-- Does `needle` occur at the head of `hay`? -/
def leadsChars : List Char → List Char → Bool
  | [], _ => true
  | _ :: _, [] => false
  | a :: as, b :: bs => a == b && leadsChars as bs

/-- Does `needle` occur anywhere in `hay`? (Python `needle in hay`.) -/
def hasSubChars (needle : List Char) : List Char → Bool
  | [] => needle.isEmpty
  | c :: cs => leadsChars needle (c :: cs) || hasSubChars needle cs

/-- Python substring test `needle in hay`. -/
def strContains (hay needle : String) : Bool := hasSubChars needle.data hay.data

/-- Decimal value of a digit run. -/
def digitsToNat (ds : List Char) : ℕ :=
  ds.foldl (fun n c => 10 * n + (c.toNat - '0'.toNat)) 0

/-- Try to match `(\d+(?:\.\d+)?)\s*%` at the head of `cs` and return the
numeric group.  Greedy digit runs with the regex's backtracking resolved:
a fractional part whose digits are not followed by optional whitespace and
`%` cannot be rescued by shrinking a digit run (the next character would be
a digit, never `%`), so the match at this start position fails. -/
def matchNumAt (cs : List Char) : Option ℚ :=
  let d := cs.takeWhile (·.isDigit)
  let rest := cs.dropWhile (·.isDigit)
  if d.isEmpty then none
  else
    let intval : ℚ := digitsToNat d
    match rest with
    | '.' :: rest2 =>
      let f := rest2.takeWhile (·.isDigit)
      let rest3 := rest2.dropWhile (·.isDigit)
      if f.isEmpty then none
      else
        match rest3.dropWhile (·.isWhitespace) with
        | '%' :: _ => some (intval + (digitsToNat f : ℚ) / (10 ^ f.length))
        | _ => none
    | _ =>
      match rest.dropWhile (·.isWhitespace) with
      | '%' :: _ => some intval
      | _ => none

/-- `re.search(r"[-]?(\d+(?:\.\d+)?)\s*%", s)` followed by
`abs(float(group(1)))`: scan start positions left to right.  A match starting
at the optional `-` yields the same (unsigned) group as the match starting at
its first digit, so sign positions need no separate handling. -/
def reSearchNum : List Char → Option ℚ
  | [] => none
  | c :: cs =>
    match matchNumAt (c :: cs) with
    | some q => some q
    | none => reSearchNum cs

/-! ## Difficulty calculator (`src/utils/course_analyzer.py`)

`DifficultyCalculator` is a stateless class; its methods become plain
functions.  `statistics.stdev` (sample standard deviation, a square root) is
irrational in general, so every function that would call it takes it as an
explicit parameter `stdev`; theorems that need facts about it assume only
`0 ≤ stdev l`.  The `crux_segments`, `difficulty_justification` and
`strategic_insights` outputs are pure presentation (they never feed back into
any numeric metric) and are not modelled. -/

/-- `DifficultyCalculator._calculate_elevation_intensity`. -/
def calculate_elevation_intensity (course : CourseProfile) : ℚ :=
  if course.bike_distance_miles = 0 then 0
  else (course.bike_elevation_gain_ft : ℚ) / course.bike_distance_miles

/-- The statistics returned by
`DifficultyCalculator._analyze_gradient_distribution` (the `distribution`
dict flattened into four percentage fields). -/
structure GradientStats where
  avg : ℚ
  max : ℚ
  variance : ℚ
  dist_easy : ℚ
  dist_moderate : ℚ
  dist_hard : ℚ
  dist_extreme : ℚ
  deriving DecidableEq, Repr

/-- The gradient sample gathered by `_analyze_gradient_distribution`: every
climb's `avg_grade`, every climb's `max_grade` when positive, and the
absolute per-point grades of the elevation profile (from index 1 on) when the
profile has more than one point. -/
def courseGradients (course : CourseProfile) : List ℚ :=
  (course.key_climbs.map (fun climb =>
    climb.avg_grade :: (if 0 < climb.max_grade then [climb.max_grade] else []))).flatten ++
  (if 1 < course.elevation_profile.length then
    ((course.elevation_profile.drop 1).filterMap (·.gradient_percent)).map (fun g => |g|)
  else [])

/-- `DifficultyCalculator._analyze_gradient_distribution`. -/
def analyze_gradient_distribution (stdev : List ℚ → ℚ) (course : CourseProfile) :
    GradientStats :=
  let gradients := courseGradients course
  if gradients.isEmpty then ⟨0, 0, 0, 0, 0, 0, 0⟩
  else
    let avg_gradient := listMean gradients
    let max_gradient := listMax gradients
    let variance := if 1 < gradients.length then stdev gradients else 0
    let total : ℚ := gradients.length
    let pct := fun (p : ℚ → Prop) [DecidablePred p] =>
      ((gradients.countP (fun g => decide (p g))) : ℚ) / total * 100
    ⟨avg_gradient, max_gradient, variance,
      pct (fun g => |g| < 3),
      pct (fun g => 3 ≤ |g| ∧ |g| < 6),
      pct (fun g => 6 ≤ |g| ∧ |g| < 10),
      pct (fun g => 10 ≤ |g|)⟩

/-- `DifficultyCalculator._analyze_climb_clustering`. -/
def analyze_climb_clustering (stdev : List ℚ → ℚ) (course : CourseProfile) : ℚ :=
  if course.key_climbs.isEmpty then 0
  else
    let climb_positions :=
      (course.key_climbs.map (·.start_mile)).mergeSort (fun a b => decide (a ≤ b))
    if climb_positions.length < 2 then 0
    else
      let gaps := (climb_positions.zip climb_positions.tail).map (fun ab => ab.2 - ab.1)
      let climb_lengths := course.key_climbs.map (·.length_miles)
      let max_climb_length := listMax climb_lengths
      let gap_variance := if 1 < gaps.length then stdev gaps else 0
      let avg_gap := if gaps.isEmpty then 0 else listMean gaps
      let normalized_variance := if 0 < avg_gap then gap_variance / avg_gap else 0
      let length_factor := max_climb_length / course.bike_distance_miles
      min 1 (normalized_variance * (6/10) + length_factor * 4)

/-- The technical-difficulty factors contributed by one climb
(`max_grade > 15` and `avg_grade > 10`, each normalised and clamped). -/
def climbTechFactors (climb : ClimbSegment) : List ℚ :=
  (if 15 < climb.max_grade then [min 1 (climb.max_grade / 30)] else []) ++
  (if 10 < climb.avg_grade then [min 1 (climb.avg_grade / 20)] else [])

/-- The keyword list of `_calculate_technical_difficulty`. -/
def technicalKeywords : List String := ["switchback", "technical", "narrow", "sharp"]

/-- The factors contributed by one technical-section descriptor: a clamped
grade factor when the descriptor mentions a descent or a percent sign and a
grade above 8% can be regex-extracted, and a flat 0.5 when it contains a
technical keyword. -/
def sectionTechFactors (sec : String) : List ℚ :=
  let low := sec.toLower
  let gradeFactors :=
    if strContains low "descent" || strContains sec "%" then
      match reSearchNum sec.data with
      | some gradient => if 8 < gradient then [min 1 (gradient / 20)] else []
      | none => []
    else []
  let keywordFactors :=
    if technicalKeywords.any (fun k => strContains low k) then [(1:ℚ)/2] else []
  gradeFactors ++ keywordFactors

/-- `DifficultyCalculator._calculate_technical_difficulty`: the mean of all
factors, 0 when there are none. -/
def calculate_technical_difficulty (course : CourseProfile) : ℚ :=
  let factors := (course.key_climbs.map climbTechFactors).flatten ++
    (course.technical_sections.map sectionTechFactors).flatten
  if factors.isEmpty then 0 else listMean factors

/-- Python's builtin `round` to the nearest integer: round half to even. -/
def roundHalfEven (q : ℚ) : ℤ :=
  if q - ⌊q⌋ < 1/2 then ⌊q⌋
  else if 1/2 < q - ⌊q⌋ then ⌊q⌋ + 1
  else if ⌊q⌋ % 2 = 0 then ⌊q⌋ else ⌊q⌋ + 1

/-- Python `round(q, 1)` (on the exact rational value). -/
def pyRound1 (q : ℚ) : ℚ := (roundHalfEven (10 * q) : ℚ) / 10

/-- Factor 1 of `_calculate_overall_rating`: banded elevation-intensity
points (bands at 20/50/100/150 ft per mile). -/
def intensityPoints (elevation_intensity : ℚ) : ℚ :=
  if elevation_intensity < 20 then 1/2
  else if elevation_intensity < 50 then 1
  else if elevation_intensity < 100 then 2
  else if elevation_intensity < 150 then 5/2
  else 3

/-- Factor 6 of `_calculate_overall_rating`: the altitude bonus, applied
above 5000 ft. -/
def altitudePoints (altitude_ft : ℤ) : ℚ :=
  if 5000 < altitude_ft then min 1 (((altitude_ft : ℚ) - 5000) / 5000) else 0

/-- The `rating` accumulator of `_calculate_overall_rating` before the
final round-and-cap: base 1.0 plus the six factors. -/
def preRating (elevation_intensity : ℚ) (gradient_stats : GradientStats)
    (climb_clustering technical_score : ℚ) (altitude_ft : ℤ) : ℚ :=
  1 + intensityPoints elevation_intensity
    + min 2 (gradient_stats.avg / 5)
    + min 1 (gradient_stats.max / 20)
    + climb_clustering + technical_score
    + altitudePoints altitude_ft

/-- `DifficultyCalculator._calculate_overall_rating`:
`min(10.0, round(rating, 1))`. -/
def calculate_overall_rating (elevation_intensity : ℚ) (gradient_stats : GradientStats)
    (climb_clustering technical_score : ℚ) (altitude_ft : ℤ) : ℚ :=
  min 10 (pyRound1 (preRating elevation_intensity gradient_stats climb_clustering
    technical_score altitude_ft))

/-- The numeric fields of `DifficultyMetrics`. -/
structure DifficultyMetrics where
  overall_rating : ℚ
  elevation_intensity : ℚ
  avg_gradient : ℚ
  max_gradient : ℚ
  gradient_variance : ℚ
  climb_clustering_score : ℚ
  technical_difficulty : ℚ
  deriving DecidableEq, Repr

/-- `DifficultyCalculator.calculate_difficulty` (numeric fields). -/
def calculate_difficulty (stdev : List ℚ → ℚ) (course : CourseProfile) :
    DifficultyMetrics :=
  let elevation_intensity := calculate_elevation_intensity course
  let gradient_stats := analyze_gradient_distribution stdev course
  let climb_clustering := analyze_climb_clustering stdev course
  let technical_score := calculate_technical_difficulty course
  { overall_rating := calculate_overall_rating elevation_intensity gradient_stats
      climb_clustering technical_score course.altitude_ft
    elevation_intensity := elevation_intensity
    avg_gradient := gradient_stats.avg
    max_gradient := gradient_stats.max
    gradient_variance := gradient_stats.variance
    climb_clustering_score := climb_clustering
    technical_difficulty := technical_score }

/-- The comparison fields of `DifficultyCalculator.compare_courses` that the
claims refer to (the per-metric table and `key_differences` are further
presentation of the same two metric records). -/
structure CourseComparison where
  course1_name : String
  course2_name : String
  difficulty_difference : ℚ
  harder_course : String
  deriving DecidableEq, Repr

/-- `DifficultyCalculator.compare_courses`: `harder_course` is
`course1.name` exactly when `metrics1.overall_rating >
metrics2.overall_rating`, else `course2.name`. -/
def compare_courses (stdev : List ℚ → ℚ) (course1 course2 : CourseProfile) :
    CourseComparison :=
  let metrics1 := calculate_difficulty stdev course1
  let metrics2 := calculate_difficulty stdev course2
  { course1_name := course1.name
    course2_name := course2.name
    difficulty_difference := metrics1.overall_rating - metrics2.overall_rating
    harder_course :=
      if metrics2.overall_rating < metrics1.overall_rating then course1.name
      else course2.name }

/-! ## Data-quality validator (`src/utils/data_validator.py`)

Each check returns `Except Unit (List ValidationResult)`; `.error ()` marks
the one place a check can raise a Python exception
(`_validate_gps_point_quality` divides the jump count by
`bike_distance_miles`, a `ZeroDivisionError` when that distance is 0).
`validate_course` catches per check, exactly like the Python
`try`/`except Exception`.  The free-text `message`, `details` and
`suggested_fix` fields are not modelled. -/

/-- The modelled fields of `ValidationResult`. -/
structure ValidationResult where
  check_name : String
  passed : Bool
  severity : String
  deriving DecidableEq, Repr

/-- `DataValidator._validate_basic_course_data`. -/
def validate_basic_course_data (course : CourseProfile) :
    Except Unit (List ValidationResult) :=
  let errs : Bool := course.name.trim.isEmpty ∨
    course.bike_distance_miles ≤ 0 ∨ course.bike_elevation_gain_ft < 0
  if errs then .ok [⟨"Basic Course Data", false, "critical"⟩]
  else .ok [⟨"Basic Course Data", true, "info"⟩]

/-- `DataValidator._validate_distance_bounds` (`MIN_COURSE_DISTANCE = 5`,
`MAX_COURSE_DISTANCE = 200`). -/
def validate_distance_bounds (course : CourseProfile) :
    Except Unit (List ValidationResult) :=
  let distance := course.bike_distance_miles
  if distance < 5 then .ok [⟨"Distance Bounds", false, "critical"⟩]
  else if 200 < distance then .ok [⟨"Distance Bounds", false, "critical"⟩]
  else .ok [⟨"Distance Bounds", true, "info"⟩]

/-- `DataValidator._validate_elevation_data` (`MIN_ELEVATION_FT = -500`,
`MAX_ELEVATION_FT = 29000`, `MAX_ELEVATION_GAIN_PER_MILE = 1500`).  The
Python `is not None` filter on `elevation_ft` never removes anything — the
field is a plain float — so `elevations` is the whole elevation column and
the "No valid elevation values" branch needs the profile to be empty, which
the first guard already caught. -/
def validate_elevation_data (course : CourseProfile) :
    Except Unit (List ValidationResult) :=
  if course.elevation_profile.isEmpty then
    .ok [⟨"Elevation Profile", false, "critical"⟩]
  else
    let elevations := course.elevation_profile.map (·.elevation_ft)
    if elevations.isEmpty then .ok [⟨"Elevation Values", false, "critical"⟩]
    else
      let invalid_count := elevations.countP (fun e =>
        decide (e < -500 ∨ 29000 < e))
      let boundsResult : ValidationResult :=
        if 0 < invalid_count then ⟨"Elevation Bounds", false, "warning"⟩
        else ⟨"Elevation Bounds", true, "info"⟩
      let gain_per_mile : ℚ :=
        if 0 < course.bike_distance_miles then
          (course.bike_elevation_gain_ft : ℚ) / course.bike_distance_miles
        else 0
      let gainResult : ValidationResult :=
        if 1500 < gain_per_mile then ⟨"Elevation Gain Rate", false, "warning"⟩
        else ⟨"Elevation Gain Rate", true, "info"⟩
      .ok [boundsResult, gainResult]

/-- `DataValidator._validate_gradient_calculations`
(`MAX_REASONABLE_GRADIENT = 35`, impossible above 50). -/
def validate_gradient_calculations (course : CourseProfile) :
    Except Unit (List ValidationResult) :=
  if course.key_climbs.isEmpty then
    .ok [⟨"Gradient Calculations", true, "info"⟩]
  else
    let impossible := course.key_climbs.filter (fun c => decide (50 < c.max_grade))
    let extreme := course.key_climbs.filter (fun c =>
      decide (35 < c.max_grade ∧ c.max_grade ≤ 50))
    let r1 : List ValidationResult :=
      if impossible.isEmpty then [] else [⟨"Impossible Gradients", false, "critical"⟩]
    let r2 : List ValidationResult :=
      if extreme.isEmpty then [] else [⟨"Extreme Gradients", false, "warning"⟩]
    if impossible.isEmpty ∧ extreme.isEmpty then
      .ok [⟨"Gradient Calculations", true, "info"⟩]
    else .ok (r1 ++ r2)

/-- `DataValidator._validate_climb_detection`. -/
def validate_climb_detection (course : CourseProfile) :
    Except Unit (List ValidationResult) :=
  if course.key_climbs.isEmpty then
    let gain_per_mile : ℚ :=
      if 0 < course.bike_distance_miles then
        (course.bike_elevation_gain_ft : ℚ) / course.bike_distance_miles
      else 0
    if 100 < gain_per_mile then .ok [⟨"Climb Detection", false, "warning"⟩]
    else .ok [⟨"Climb Detection", true, "info"⟩]
  else
    let invalid := course.key_climbs.filter (fun c =>
      decide (c.length_miles ≤ 0 ∨ c.elevation_gain_ft ≤ 0 ∨ c.avg_grade ≤ 0))
    if invalid.isEmpty then .ok [⟨"Climb Detection", true, "info"⟩]
    else .ok [⟨"Climb Detection", false, "critical"⟩]

/-- `DataValidator._validate_gps_point_quality` (`MIN_GPS_POINTS = 10`).
When metadata reports `large_distance_jumps > 0`, the jump rate is
`jump_count / bike_distance_miles` — a `ZeroDivisionError` (modelled as
`.error ()`) when the course distance is exactly 0. -/
def validate_gps_point_quality (course : CourseProfile) :
    Except Unit (List ValidationResult) :=
  if course.elevation_profile.isEmpty then
    .ok [⟨"GPS Point Quality", false, "critical"⟩]
  else if course.elevation_profile.length < 10 then
    .ok [⟨"GPS Point Count", false, "critical"⟩]
  else
    let continuity : Except Unit (List ValidationResult) :=
      match course.gps_metadata with
      | none => .ok []
      | some md =>
        if 0 < md.large_distance_jumps then
          if course.bike_distance_miles = 0 then .error ()
          else
            let jumps_per_mile : ℚ :=
              (md.large_distance_jumps : ℚ) / course.bike_distance_miles
            if 1/2 < jumps_per_mile then
              .ok [⟨"GPS Point Continuity", false, "warning"⟩]
            else .ok [⟨"GPS Point Continuity", true, "info"⟩]
        else .ok []
    match continuity with
    | .error e => .error e
    | .ok rs => .ok (rs ++ [⟨"GPS Point Count", true, "info"⟩])

/-- `DataValidator._validate_course_consistency`. -/
def validate_course_consistency (course : CourseProfile) :
    Except Unit (List ValidationResult) :=
  let elevResults : List ValidationResult :=
    if course.key_climbs.isEmpty then []
    else
      let climb_total_gain := (course.key_climbs.map (·.elevation_gain_ft)).sum
      if (course.bike_elevation_gain_ft : ℚ) * (3/2) < (climb_total_gain : ℚ) then
        [⟨"Elevation Consistency", false, "warning"⟩]
      else [⟨"Elevation Consistency", true, "info"⟩]
  let coordResults : List ValidationResult :=
    match course.start_coords, course.finish_coords with
    | some (start_lat, start_lon), some (finish_lat, finish_lon) =>
      if ¬ (-90 ≤ start_lat ∧ start_lat ≤ 90 ∧ -180 ≤ start_lon ∧ start_lon ≤ 180) then
        [⟨"Coordinate Bounds", false, "critical"⟩]
      else if ¬ (-90 ≤ finish_lat ∧ finish_lat ≤ 90 ∧
          -180 ≤ finish_lon ∧ finish_lon ≤ 180) then
        [⟨"Coordinate Bounds", false, "critical"⟩]
      else [⟨"Coordinate Bounds", true, "info"⟩]
    | _, _ => []
  .ok (elevResults ++ coordResults)

/-- `DataValidator._validate_technical_sections` (always passes). -/
def validate_technical_sections (_course : CourseProfile) :
    Except Unit (List ValidationResult) :=
  .ok [⟨"Technical Sections", true, "info"⟩]

/-- The eight checks in registration order, each with its Python
`__name__` (used for the synthetic result when the check raises). -/
def validationChecks :
    List (String × (CourseProfile → Except Unit (List ValidationResult))) :=
  [("_validate_basic_course_data", validate_basic_course_data),
   ("_validate_distance_bounds", validate_distance_bounds),
   ("_validate_elevation_data", validate_elevation_data),
   ("_validate_gradient_calculations", validate_gradient_calculations),
   ("_validate_climb_detection", validate_climb_detection),
   ("_validate_gps_point_quality", validate_gps_point_quality),
   ("_validate_course_consistency", validate_course_consistency),
   ("_validate_technical_sections", validate_technical_sections)]

/-- The `try`/`except` around one check in `validate_course`: an exception
becomes a single synthetic critical failure named after the check. -/
def runCheckCaught (chk : String × (CourseProfile → Except Unit (List ValidationResult)))
    (course : CourseProfile) : List ValidationResult :=
  match chk.2 course with
  | .ok results => results
  | .error _ => [⟨chk.1, false, "critical"⟩]

/-- The modelled fields of `DataQualityReport`. -/
structure DataQualityReport where
  course_name : String
  overall_score : ℚ
  total_checks : ℕ
  passed_checks : ℕ
  critical_failures : ℕ
  warnings : ℕ
  validation_results : List ValidationResult
  deriving DecidableEq, Repr

/-- `DataValidator.validate_course`: run the eight checks (each exception
isolated to its check), then score:
`max(0, passed/total*100 - 20*criticals - 5*warnings)` when any results
exist, otherwise the initial 0. -/
def validate_course (course : CourseProfile) : DataQualityReport :=
  let results := (validationChecks.map (fun chk => runCheckCaught chk course)).flatten
  let total_checks := results.length
  let passed_checks := (results.filter (·.passed)).length
  let critical_failures := (results.filter (fun r =>
    !r.passed && r.severity == "critical")).length
  let warnings := (results.filter (fun r =>
    !r.passed && r.severity == "warning")).length
  let overall_score : ℚ :=
    if 0 < total_checks then
      max 0 ((passed_checks : ℚ) / total_checks * 100
        - critical_failures * 20 - warnings * 5)
    else 0
  { course_name := if course.name = "" then "Unknown Course" else course.name
    overall_score := overall_score
    total_checks := total_checks
    passed_checks := passed_checks
    critical_failures := critical_failures
    warnings := warnings
    validation_results := results }

/-- `DataQualityReport.is_valid_for_strategy`. -/
def isValidForStrategy (report : DataQualityReport) : Bool :=
  report.critical_failures = 0 ∧ 75 ≤ report.overall_score

/-! ## Shared helper lemmas -/

/-- A trivial stand-in for `statistics.stdev`, used when instantiating
parametric theorems on inputs whose evaluation never consults it. -/
def zeroStdev : List ℚ → ℚ := fun _ => 0

theorem foldl_preserves {α β : Type} {f : β → α → β} {P : β → Prop}
    (hf : ∀ b a, P b → P (f b a)) :
    ∀ (l : List α) (b : β), P b → P (l.foldl f b) := by
  intro l
  induction l with
  | nil => intro b hb; exact hb
  | cons a l ih => intro b hb; exact ih (f b a) (hf b a hb)

theorem listMean_le_of_forall_le {l : List ℚ} {m : ℚ} (hne : l ≠ [])
    (h : ∀ x ∈ l, x ≤ m) : listMean l ≤ m := by
  have hlen : 0 < (l.length : ℚ) := by
    have := List.length_pos.mpr hne
    exact_mod_cast this
  have hsum : l.sum ≤ l.length • m := List.sum_le_card_nsmul l m h
  have hsum' : l.sum ≤ (l.length : ℚ) * m := by
    simpa [nsmul_eq_mul] using hsum
  rw [listMean, div_le_iff₀ hlen]
  linarith [hsum']

theorem listMean_nonneg {l : List ℚ} (h : ∀ x ∈ l, 0 ≤ x) : 0 ≤ listMean l := by
  have hsum : 0 ≤ l.sum := List.sum_nonneg h
  have hlen : (0:ℚ) ≤ (l.length : ℚ) := by positivity
  exact div_nonneg hsum hlen

theorem listMax_nonneg {l : List ℚ} (h : ∀ x ∈ l, 0 ≤ x) : 0 ≤ listMax l := by
  cases l with
  | nil => simp [listMax]
  | cons x xs =>
    have hx : 0 ≤ x := h x (by simp)
    have hstep : ∀ (b a : ℚ), 0 ≤ b → 0 ≤ max b a :=
      fun b a hb => le_trans hb (le_max_left b a)
    simpa [listMax] using foldl_preserves (P := fun b => 0 ≤ b) hstep xs x hx

theorem roundHalfEven_ge (q : ℚ) : q - 1/2 ≤ (roundHalfEven q : ℚ) := by
  have hfl : (⌊q⌋ : ℚ) ≤ q := Int.floor_le q
  have hfr : q - (⌊q⌋ : ℚ) < 1 := by
    have := Int.lt_floor_add_one q
    linarith
  unfold roundHalfEven
  split
  next h1 => linarith
  next h1 =>
    split
    next h2 => push_cast; linarith
    next h2 =>
      have heq : q - (⌊q⌋ : ℚ) = 1/2 := le_antisymm (not_lt.mp h2) (not_lt.mp h1)
      split
      next h3 => linarith
      next h3 => push_cast; linarith

theorem roundHalfEven_le (q : ℚ) : (roundHalfEven q : ℚ) ≤ q + 1/2 := by
  have hfl : (⌊q⌋ : ℚ) ≤ q := Int.floor_le q
  have hfr : q - (⌊q⌋ : ℚ) < 1 := by
    have := Int.lt_floor_add_one q
    linarith
  unfold roundHalfEven
  split
  next h1 => linarith
  next h1 =>
    split
    next h2 => push_cast; linarith [not_lt.mp h1]
    next h2 =>
      have heq : q - (⌊q⌋ : ℚ) = 1/2 := le_antisymm (not_lt.mp h2) (not_lt.mp h1)
      split
      next h3 => linarith
      next h3 => push_cast; linarith

theorem roundHalfEven_add_six (q : ℚ) :
    roundHalfEven (q + 6) = roundHalfEven q + 6 := by
  have hfloor : ⌊q + 6⌋ = ⌊q⌋ + 6 := by
    have h6 : ⌊q + ((6:ℤ):ℚ)⌋ = ⌊q⌋ + 6 := Int.floor_add_int q 6
    push_cast at h6
    exact h6
  have hmod : (⌊q⌋ + 6) % 2 = ⌊q⌋ % 2 := by omega
  unfold roundHalfEven
  rw [hfloor]
  have hfr : q + 6 - (((⌊q⌋ + 6) : ℤ) : ℚ) = q - (⌊q⌋ : ℚ) := by push_cast; ring
  rw [hfr, hmod]
  split
  next h1 => rfl
  next h1 =>
    split
    next h2 => omega
    next h2 =>
      split
      next h3 => omega
      next h3 => omega

theorem roundHalfEven_le_int {q : ℚ} {k : ℤ} (h : q ≤ (k : ℚ)) :
    roundHalfEven q ≤ k := by
  have h1 := roundHalfEven_le q
  have h2 : (roundHalfEven q : ℚ) < ((k + 1 : ℤ) : ℚ) := by push_cast; linarith
  have h3 : roundHalfEven q < k + 1 := by exact_mod_cast h2
  omega

theorem int_le_roundHalfEven {q : ℚ} {k : ℤ} (h : (k : ℚ) ≤ q) :
    k ≤ roundHalfEven q := by
  have h1 := roundHalfEven_ge q
  have h2 : ((k - 1 : ℤ) : ℚ) < (roundHalfEven q : ℚ) := by push_cast; linarith
  have h3 : k - 1 < roundHalfEven q := by exact_mod_cast h2
  omega

theorem intensityPoints_le_three (x : ℚ) : intensityPoints x ≤ 3 := by
  unfold intensityPoints
  split
  · norm_num
  · split
    · norm_num
    · split
      · norm_num
      · split
        · norm_num
        · norm_num

theorem half_le_intensityPoints (x : ℚ) : 1/2 ≤ intensityPoints x := by
  unfold intensityPoints
  split
  · norm_num
  · split
    · norm_num
    · split
      · norm_num
      · split
        · norm_num
        · norm_num

theorem altitudePoints_nonneg (a : ℤ) : 0 ≤ altitudePoints a := by
  unfold altitudePoints
  split
  next h =>
    apply le_min
    · norm_num
    · apply div_nonneg
      · have : (5000 : ℚ) < (a : ℚ) := by exact_mod_cast h
        linarith
      · norm_num
  next h => exact le_refl 0

theorem altitudePoints_le_one (a : ℤ) : altitudePoints a ≤ 1 := by
  unfold altitudePoints
  split
  · exact min_le_left 1 _
  · norm_num

theorem climbTechFactors_mem {c : ClimbSegment} {x : ℚ}
    (hx : x ∈ climbTechFactors c) : 0 ≤ x ∧ x ≤ 1 := by
  unfold climbTechFactors at hx
  rcases List.mem_append.mp hx with h | h
  · split at h
    next hg =>
      simp at h
      subst h
      constructor
      · apply le_min
        · norm_num
        · apply div_nonneg
          · linarith
          · norm_num
      · exact min_le_left 1 _
    next hg => simp at h
  · split at h
    next hg =>
      simp at h
      subst h
      constructor
      · apply le_min
        · norm_num
        · apply div_nonneg
          · linarith
          · norm_num
      · exact min_le_left 1 _
    next hg => simp at h

theorem sectionTechFactors_mem {s : String} {x : ℚ}
    (hx : x ∈ sectionTechFactors s) : 0 ≤ x ∧ x ≤ 1 := by
  unfold sectionTechFactors at hx
  dsimp only at hx
  rcases List.mem_append.mp hx with h | h
  · by_cases hc : (strContains s.toLower "descent" || strContains s "%") = true
    · rw [if_pos hc] at h
      rcases hsearch : reSearchNum s.data with _ | g
      · rw [hsearch] at h
        simp at h
      · rw [hsearch] at h
        dsimp only at h
        by_cases hg : (8:ℚ) < g
        · rw [if_pos hg] at h
          simp at h
          subst h
          exact ⟨le_min (by norm_num) (div_nonneg (by linarith) (by norm_num)),
            min_le_left 1 _⟩
        · rw [if_neg hg] at h
          simp at h
    · rw [if_neg hc] at h
      simp at h
  · by_cases hk : (technicalKeywords.any fun k => strContains s.toLower k) = true
    · rw [if_pos hk] at h
      simp at h
      subst h
      norm_num
    · rw [if_neg hk] at h
      simp at h

theorem calculate_technical_difficulty_bounds (course : CourseProfile) :
    0 ≤ calculate_technical_difficulty course ∧
      calculate_technical_difficulty course ≤ 1 := by
  unfold calculate_technical_difficulty
  have hmem : ∀ x ∈ (course.key_climbs.map climbTechFactors).flatten ++
      (course.technical_sections.map sectionTechFactors).flatten, 0 ≤ x ∧ x ≤ 1 := by
    intro x hx
    rcases List.mem_append.mp hx with h | h
    · rcases List.mem_flatten.mp h with ⟨l, hl, hxl⟩
      rcases List.mem_map.mp hl with ⟨c, _, rfl⟩
      exact climbTechFactors_mem hxl
    · rcases List.mem_flatten.mp h with ⟨l, hl, hxl⟩
      rcases List.mem_map.mp hl with ⟨s, _, rfl⟩
      exact sectionTechFactors_mem hxl
  dsimp only
  by_cases hempty : ((course.key_climbs.map climbTechFactors).flatten ++
      (course.technical_sections.map sectionTechFactors).flatten).isEmpty = true
  · rw [if_pos hempty]
    norm_num
  · rw [if_neg hempty]
    constructor
    · exact listMean_nonneg (fun x hx => (hmem x hx).1)
    · exact listMean_le_of_forall_le
        (by simpa [List.isEmpty_iff] using hempty)
        (fun x hx => (hmem x hx).2)

theorem analyze_climb_clustering_le_one (stdev : List ℚ → ℚ)
    (course : CourseProfile) : analyze_climb_clustering stdev course ≤ 1 := by
  unfold analyze_climb_clustering
  split
  · norm_num
  · dsimp only
    split
    · norm_num
    · exact min_le_left 1 _

theorem ite_nonneg {c : Prop} [Decidable c] {x y : ℚ} (hx : 0 ≤ x) (hy : 0 ≤ y) :
    0 ≤ if c then x else y := by
  split
  · exact hx
  · exact hy

theorem ite_nonneg_dep {c : Prop} [Decidable c] {x y : ℚ} (hx : c → 0 ≤ x)
    (hy : ¬c → 0 ≤ y) : 0 ≤ if c then x else y := by
  split
  next h => exact hx h
  next h => exact hy h

theorem analyze_climb_clustering_nonneg (stdev : List ℚ → ℚ)
    (course : CourseProfile) (hstdev : ∀ l, 0 ≤ stdev l)
    (hdist : 0 < course.bike_distance_miles)
    (hlen : ∀ climb ∈ course.key_climbs, 0 ≤ climb.length_miles) :
    0 ≤ analyze_climb_clustering stdev course := by
  have hlenmax : 0 ≤ listMax (course.key_climbs.map (·.length_miles)) := by
    apply listMax_nonneg
    intro x hx
    rcases List.mem_map.mp hx with ⟨c, hc, rfl⟩
    exact hlen c hc
  unfold analyze_climb_clustering
  split
  next hempty => norm_num
  next hne =>
    dsimp only
    split
    next => norm_num
    next =>
      apply le_min (by norm_num)
      refine add_nonneg (mul_nonneg ?_ (by norm_num)) (mul_nonneg ?_ (by norm_num))
      · exact ite_nonneg_dep
          (fun hpos => div_nonneg (ite_nonneg (hstdev _) le_rfl) (le_of_lt hpos))
          (fun _ => le_rfl)
      · exact div_nonneg hlenmax (le_of_lt hdist)

/-! ## Concrete evaluation inputs -/

instance : Inhabited ClimbSegment := ⟨⟨0, 0, 0, 0, 0, none, none, []⟩⟩

/-- A GPS point at fixed coordinates with the given cumulative distance,
elevation and gradient annotation. -/
def mkPt (d e : ℚ) (g : Option ℚ) : GPSPoint := ⟨45, 6, e, d, g⟩

/-- A climb that opens at 3% and then runs flat: its average grade (1%)
drops below `min_climb_grade`. -/
def c1ExamplePts : List GPSPoint :=
  [mkPt 0 100 none, mkPt (1/5) 110 (some 3), mkPt (2/5) 110 (some 0),
   mkPt (3/5) 110 (some 0), mkPt (4/5) 105 (some (-1))]

/-- The first climb emitted for `c1ExamplePts`. -/
def c1WitnessClimb : ClimbSegment := (detect_climbs 3 (1/2) c1ExamplePts).getD 0 default

/-- A track that climbs at 5% all the way to its last point: the scan ends
in the climbing state without ever seeing a negative grade. -/
def c2ExamplePts : List GPSPoint :=
  [mkPt 0 0 none, mkPt (3/10) 60 (some 5), mkPt (3/5) 120 (some 5),
   mkPt (9/10) 180 (some 5), mkPt (6/5) 240 (some 5)]

/-- A 3-point track (shorter than the smoothing window). -/
def c6ExamplePts : List GPSPoint :=
  [mkPt 0 0 none, mkPt (1/2) 100 none, mkPt 1 0 none]

/-- A 6-point track (at least as long as the smoothing window). -/
def c6WitnessPts : List GPSPoint :=
  [mkPt 0 0 none, mkPt (1/2) 100 none, mkPt 1 0 none,
   mkPt (3/2) 50 none, mkPt 2 60 none, mkPt (5/2) 70 none]

/-- A zero-distance, zero-climb course. -/
def zeroCourse : CourseProfile :=
  { name := "Zero", bike_distance_miles := 0, bike_elevation_gain_ft := 0,
    key_climbs := [], technical_sections := [] }

/-- The same course under a different name. -/
def zeroCourseB : CourseProfile := { zeroCourse with name := "Zero B" }

/-! ## Claims -/

/-- One step of the climb scan preserves the emitted-climb invariants and
the in-progress-climb invariants (nonempty grade list, max dominates every
recorded grade and is at least `min_climb_grade`). -/
theorem detectClimbsStep_inv (mg md : ℚ) (pts : List GPSPoint)
    (acc : List ClimbSegment × Option ClimbState) (ip : ℕ × GPSPoint)
    (hclimbs : ∀ climb ∈ acc.1, md ≤ climb.length_miles ∧
      climb.avg_grade ≤ climb.max_grade ∧ mg ≤ climb.max_grade ∧
      0 ≤ climb.elevation_gain_ft)
    (hstate : ∀ c, acc.2 = some c → c.grades ≠ [] ∧
      (∀ g ∈ c.grades, g ≤ c.max_grade) ∧ mg ≤ c.max_grade) :
    (∀ climb ∈ (detectClimbsStep mg md pts acc ip).1, md ≤ climb.length_miles ∧
      climb.avg_grade ≤ climb.max_grade ∧ mg ≤ climb.max_grade ∧
      0 ≤ climb.elevation_gain_ft) ∧
    (∀ c, (detectClimbsStep mg md pts acc ip).2 = some c → c.grades ≠ [] ∧
      (∀ g ∈ c.grades, g ≤ c.max_grade) ∧ mg ≤ c.max_grade) := by
  obtain ⟨climbs, cur⟩ := acc
  obtain ⟨i, point⟩ := ip
  cases hg : point.gradient_percent with
  | none =>
    simp only [detectClimbsStep, hg]
    exact ⟨hclimbs, hstate⟩
  | some g =>
    cases cur with
    | none =>
      simp only [detectClimbsStep, hg]
      by_cases hge : mg ≤ g
      · rw [if_pos hge]
        refine ⟨hclimbs, ?_⟩
        rintro c hc
        injection hc with hc'
        subst hc'
        refine ⟨by simp, ?_, hge⟩
        intro g' hg'
        simp at hg'
        subst hg'
        exact le_refl _
      · rw [if_neg hge]
        exact ⟨hclimbs, fun c hc => Option.noConfusion hc⟩
    | some c =>
      have hcinv := hstate c rfl
      simp only [detectClimbsStep, hg]
      by_cases hge0 : (0:ℚ) ≤ g
      · rw [if_pos hge0]
        refine ⟨hclimbs, ?_⟩
        rintro c' hc'
        injection hc' with hc''
        subst hc''
        refine ⟨by simp, ?_, le_trans hcinv.2.2 (le_max_left _ _)⟩
        intro g' hg'
        rcases List.mem_append.mp hg' with h | h
        · exact le_trans (hcinv.2.1 g' h) (le_max_left _ _)
        · simp at h
          subst h
          exact le_max_right _ _
      · rw [if_neg hge0]
        by_cases hend : g < 0 ∨ i = pts.length - 1
        · rw [if_pos hend]
          by_cases hlen : md ≤ point.distance_miles - c.start_mile
          · rw [if_pos hlen]
            refine ⟨?_, fun c' hc' => Option.noConfusion hc'⟩
            intro climb hclimb
            rcases List.mem_append.mp hclimb with h | h
            · exact hclimbs climb h
            · simp at h
              subst h
              exact ⟨hlen, listMean_le_of_forall_le hcinv.1 hcinv.2.1,
                hcinv.2.2, Int.floor_nonneg.mpr (le_max_left 0 _)⟩
          · rw [if_neg hlen]
            exact ⟨hclimbs, fun c' hc' => Option.noConfusion hc'⟩
        · rw [if_neg hend]
          exact ⟨hclimbs, hstate⟩

/-- C1 (amended): every `ClimbSegment` emitted by `_detect_climbs` has
`length_miles ≥ min_climb_distance`, `max_grade ≥ avg_grade`,
`max_grade ≥ min_climb_grade` and `elevation_gain_ft ≥ 0`.  (The claim's
stronger `avg_grade ≥ min_climb_grade` is refuted separately: only the
climb's first grade is guaranteed to reach the threshold.) -/
theorem climb_segment_invariants (min_climb_grade min_climb_distance : ℚ)
    (pts : List GPSPoint) (climb : ClimbSegment)
    (hmem : climb ∈ detect_climbs min_climb_grade min_climb_distance pts) :
    min_climb_distance ≤ climb.length_miles ∧
    climb.avg_grade ≤ climb.max_grade ∧
    min_climb_grade ≤ climb.max_grade ∧
    0 ≤ climb.elevation_gain_ft := by
  have h := foldl_preserves
    (f := detectClimbsStep min_climb_grade min_climb_distance pts)
    (P := fun acc => (∀ cl ∈ acc.1, min_climb_distance ≤ cl.length_miles ∧
        cl.avg_grade ≤ cl.max_grade ∧ min_climb_grade ≤ cl.max_grade ∧
        0 ≤ cl.elevation_gain_ft) ∧
      (∀ c, acc.2 = some c → c.grades ≠ [] ∧
        (∀ g ∈ c.grades, g ≤ c.max_grade) ∧ min_climb_grade ≤ c.max_grade))
    (fun b a hb => detectClimbsStep_inv min_climb_grade min_climb_distance pts b a
      hb.1 hb.2)
    pts.enum ([], none)
    ⟨fun cl hcl => absurd hcl (List.not_mem_nil cl),
      fun c hc => Option.noConfusion hc⟩
  unfold detect_climbs at hmem
  exact h.1 climb hmem

/-- Witness for C1 at a concretely emitted climb. -/
theorem climb_segment_invariants_witness :
    (1:ℚ)/2 ≤ c1WitnessClimb.length_miles ∧
    c1WitnessClimb.avg_grade ≤ c1WitnessClimb.max_grade ∧
    (3:ℚ) ≤ c1WitnessClimb.max_grade ∧
    0 ≤ c1WitnessClimb.elevation_gain_ft :=
  climb_segment_invariants 3 (1/2) c1ExamplePts c1WitnessClimb
    (by norm_num [c1WitnessClimb, detect_climbs, c1ExamplePts, mkPt,
      detectClimbsStep, mkClimbSegment, listMean, List.enum, List.enumFrom])

/-- C1 counterexample: an emitted climb whose average grade (1%) is below
`min_climb_grade` (3%): the climb opens at 3% but its later flat
(grade-0) stretches dilute the average. -/
theorem climb_avg_grade_counterexample :
    (detect_climbs 3 (1/2) c1ExamplePts).map (·.avg_grade) = [1] ∧
    ¬ ((3:ℚ) ≤ 1) := by
  constructor
  · norm_num [detect_climbs, c1ExamplePts, mkPt, detectClimbsStep, mkClimbSegment,
      listMean, List.enum, List.enumFrom]
  · norm_num

/-- C2: the end of the track is, per the specification, an emission trigger
for an in-progress climb, but the code never takes it: the `elif
point.gradient_percent >= 0` continuation branch precedes the emission
branch, so a final point with nonnegative grade extends the climb and the
loop then ends, discarding it.  `c2ExamplePts` climbs at 5% for 0.9 mi
(≥ `min_climb_distance`) up to its last point, yet no climb is emitted;
appending one descending point makes the very same climb appear. -/
theorem end_of_track_climb_not_emitted :
    detect_climbs 3 (1/2) c2ExamplePts = [] ∧
    detect_climbs 3 (1/2) (c2ExamplePts ++ [mkPt (13/10) 230 (some (-2))]) ≠ [] := by
  constructor
  · norm_num [detect_climbs, c2ExamplePts, mkPt, detectClimbsStep,
      List.enum, List.enumFrom]
  · norm_num [detect_climbs, c2ExamplePts, mkPt, detectClimbsStep, mkClimbSegment,
      listMean, List.enum, List.enumFrom]

/-- C3 counterexample: on a zero-distance, zero-climb course the calculator
returns 1.5, not the claimed 1.0 (the flat elevation-intensity band always
contributes 0.5 on top of the 1.0 base). -/
theorem zero_course_rating_counterexample :
    (calculate_difficulty zeroStdev zeroCourse).overall_rating = 3/2 ∧
    ((3:ℚ)/2 ≠ 1) := by
  constructor
  · norm_num [calculate_difficulty, zeroCourse, zeroStdev, calculate_elevation_intensity,
      analyze_gradient_distribution, courseGradients, analyze_climb_clustering,
      calculate_technical_difficulty, calculate_overall_rating, preRating,
      intensityPoints, altitudePoints, pyRound1, roundHalfEven, listMean, listMax]
  · norm_num

/-- C3 (amended): for a zero-distance, zero-climb course (no technical
sections, altitude at most 5000 ft, no gradient-annotated points) the
overall rating is exactly 1.5 — the scale's actual minimum, not 1.0: the
flat elevation-intensity band always contributes 0.5. -/
theorem zero_course_rating_is_one_point_five (stdev : List ℚ → ℚ)
    (course : CourseProfile)
    (hdist : course.bike_distance_miles = 0) (hclimbs : course.key_climbs = [])
    (hsec : course.technical_sections = []) (halt : course.altitude_ft ≤ 5000)
    (hprof : ∀ pt ∈ course.elevation_profile, pt.gradient_percent = none) :
    (calculate_difficulty stdev course).overall_rating = 3/2 := by
  have hei : calculate_elevation_intensity course = 0 := by
    simp [calculate_elevation_intensity, hdist]
  have hfm : (course.elevation_profile.drop 1).filterMap (·.gradient_percent) = [] := by
    rw [List.filterMap_eq_nil_iff]
    intro pt hpt
    exact hprof pt (List.mem_of_mem_drop hpt)
  have hgr : courseGradients course = [] := by
    unfold courseGradients
    rw [hclimbs, hfm]
    simp
  have hstats : analyze_gradient_distribution stdev course =
      ⟨0, 0, 0, 0, 0, 0, 0⟩ := by
    unfold analyze_gradient_distribution
    rw [hgr]
    simp
  have hclu : analyze_climb_clustering stdev course = 0 := by
    unfold analyze_climb_clustering
    rw [hclimbs]
    simp
  have htech : calculate_technical_difficulty course = 0 := by
    unfold calculate_technical_difficulty
    rw [hclimbs, hsec]
    simp
  have halt' : altitudePoints course.altitude_ft = 0 := by
    unfold altitudePoints
    rw [if_neg (by omega)]
  show calculate_overall_rating (calculate_elevation_intensity course)
      (analyze_gradient_distribution stdev course)
      (analyze_climb_clustering stdev course)
      (calculate_technical_difficulty course) course.altitude_ft = 3/2
  rw [hei, hstats, hclu, htech]
  unfold calculate_overall_rating preRating
  rw [halt']
  norm_num [intensityPoints, pyRound1, roundHalfEven]

/-- Witness for C3's amended claim at the concrete zero course. -/
theorem zero_course_rating_is_one_point_five_witness :
    (calculate_difficulty zeroStdev zeroCourse).overall_rating = 3/2 :=
  zero_course_rating_is_one_point_five zeroStdev zeroCourse rfl rfl rfl
    (by decide) (by decide)

/-- The gradient sample is pointwise nonnegative when every climb's average
grade is (max grades enter only when positive; point grades enter as
absolute values). -/
theorem courseGradients_nonneg (course : CourseProfile)
    (hclimbs : ∀ climb ∈ course.key_climbs, 0 ≤ climb.avg_grade) :
    ∀ x ∈ courseGradients course, 0 ≤ x := by
  intro x hx
  unfold courseGradients at hx
  rcases List.mem_append.mp hx with h | h
  · rcases List.mem_flatten.mp h with ⟨l, hl, hxl⟩
    rcases List.mem_map.mp hl with ⟨c, hc, rfl⟩
    rcases List.mem_cons.mp hxl with rfl | hmem
    · exact hclimbs c hc
    · by_cases hmg : (0:ℚ) < c.max_grade
      · rw [if_pos hmg] at hmem
        simp at hmem
        subst hmem
        exact le_of_lt hmg
      · rw [if_neg hmg] at hmem
        simp at hmem
  · by_cases hlen : 1 < course.elevation_profile.length
    · rw [if_pos hlen] at h
      rcases List.mem_map.mp h with ⟨g, _, rfl⟩
      exact abs_nonneg g
    · rw [if_neg hlen] at h
      simp at h

/-- Under nonnegative climb averages the gathered gradient statistics have
nonnegative mean and maximum. -/
theorem gradient_stats_nonneg (stdev : List ℚ → ℚ) (course : CourseProfile)
    (hclimbs : ∀ climb ∈ course.key_climbs, 0 ≤ climb.avg_grade) :
    0 ≤ (analyze_gradient_distribution stdev course).avg ∧
    0 ≤ (analyze_gradient_distribution stdev course).max := by
  unfold analyze_gradient_distribution
  dsimp only
  by_cases hempty : (courseGradients course).isEmpty = true
  · rw [if_pos hempty]
    constructor <;> norm_num
  · rw [if_neg hempty]
    dsimp only
    exact ⟨listMean_nonneg (courseGradients_nonneg course hclimbs),
      listMax_nonneg (courseGradients_nonneg course hclimbs)⟩

/-- The rounded-and-capped rating strictly increases when the altitude bonus
moves from 0 (at 100 ft) to 0.6 (at 8000 ft), because the pre-rounding
rating never exceeds 9 without an altitude bonus. -/
theorem rating_altitude_strict (ei : ℚ) (st : GradientStats) (cl te : ℚ)
    (hcl : cl ≤ 1) (hte : te ≤ 1) :
    calculate_overall_rating ei st cl te 100 <
      calculate_overall_rating ei st cl te 8000 := by
  have h4 : altitudePoints 100 = 0 := by
    unfold altitudePoints
    rw [if_neg (by omega)]
  have h8 : altitudePoints 8000 = 3/5 := by
    unfold altitudePoints
    rw [if_pos (by omega)]
    norm_num
  have hbase : preRating ei st cl te 100 ≤ 9 := by
    have h1 := intensityPoints_le_three ei
    have h2 : min 2 (st.avg / 5) ≤ 2 := min_le_left _ _
    have h3 : min 1 (st.max / 20) ≤ 1 := min_le_left _ _
    unfold preRating
    rw [h4]
    linarith
  have hshift : preRating ei st cl te 8000 = preRating ei st cl te 100 + 3/5 := by
    unfold preRating
    rw [h4, h8]
    ring
  unfold calculate_overall_rating pyRound1
  rw [hshift]
  have hr8 : 10 * (preRating ei st cl te 100 + 3/5) =
      10 * preRating ei st cl te 100 + 6 := by ring
  rw [hr8, roundHalfEven_add_six]
  have h90 : roundHalfEven (10 * preRating ei st cl te 100) ≤ 90 :=
    roundHalfEven_le_int (by push_cast; linarith)
  have h90q : ((roundHalfEven (10 * preRating ei st cl te 100) : ℤ) : ℚ) ≤ 90 := by
    exact_mod_cast h90
  rw [min_eq_right (by linarith), min_eq_right (by push_cast; linarith)]
  push_cast
  linarith

/-- C4: two profiles identical except for base altitude (100 ft vs 8000 ft,
positive course distance) — the 8000 ft profile's overall rating is strictly
greater (by exactly 0.6 after rounding). -/
theorem altitude_raises_rating (stdev : List ℚ → ℚ) (course : CourseProfile)
    (_hdist : 0 < course.bike_distance_miles) :
    (calculate_difficulty stdev { course with altitude_ft := 100 }).overall_rating <
      (calculate_difficulty stdev { course with altitude_ft := 8000 }).overall_rating := by
  have h100 : (calculate_difficulty stdev
      { course with altitude_ft := 100 }).overall_rating =
      calculate_overall_rating (calculate_elevation_intensity course)
        (analyze_gradient_distribution stdev course)
        (analyze_climb_clustering stdev course)
        (calculate_technical_difficulty course) 100 := rfl
  have h8000 : (calculate_difficulty stdev
      { course with altitude_ft := 8000 }).overall_rating =
      calculate_overall_rating (calculate_elevation_intensity course)
        (analyze_gradient_distribution stdev course)
        (analyze_climb_clustering stdev course)
        (calculate_technical_difficulty course) 8000 := rfl
  rw [h100, h8000]
  exact rating_altitude_strict _ _ _ _
    (analyze_climb_clustering_le_one stdev course)
    (calculate_technical_difficulty_bounds course).2

/-- A flat 56-mile course used to witness the altitude and bounds claims. -/
def flatCourse : CourseProfile :=
  { name := "Flat", bike_distance_miles := 56, bike_elevation_gain_ft := 0,
    key_climbs := [], technical_sections := [] }

/-- Witness for C4 at a concrete course. -/
theorem altitude_raises_rating_witness :
    (calculate_difficulty zeroStdev { flatCourse with altitude_ft := 100 }).overall_rating <
      (calculate_difficulty zeroStdev { flatCourse with altitude_ft := 8000 }).overall_rating :=
  altitude_raises_rating zeroStdev flatCourse (by norm_num [flatCourse])

/-- C5: the fallible head of the ingestor raises exactly the spec's two
fatal failure modes: `ParseError` iff the container is malformed or holds no
tracks, `EmptyTrackError` iff the (nonempty) container yields no track
points; success returns the nonempty point list. -/
theorem ingest_error_characterization (input : GPXInput) :
    (ingest input = .error .parseError ↔
      input = .malformed ∨ input = .parsed []) ∧
    (ingest input = .error .emptyTrack ↔
      ∃ tracks, input = .parsed tracks ∧ tracks ≠ [] ∧
        collectTrackPoints tracks = []) ∧
    (∀ pts, ingest input = .ok pts ↔
      ∃ tracks, input = .parsed tracks ∧ tracks ≠ [] ∧
        collectTrackPoints tracks = pts ∧ pts ≠ []) := by
  cases input with
  | malformed =>
    refine ⟨by simp [ingest], by simp [ingest], by intro pts; simp [ingest]⟩
  | parsed tracks =>
    by_cases ht : tracks.isEmpty
    · have ht' : tracks = [] := List.isEmpty_iff.mp ht
      subst ht'
      refine ⟨by simp [ingest], by simp [ingest], by intro pts; simp [ingest]⟩
    · have ht' : tracks ≠ [] := by simpa [List.isEmpty_iff] using ht
      have htf : tracks.isEmpty = false := by simpa using ht
      by_cases hp : (collectTrackPoints tracks).isEmpty
      · have hp' : collectTrackPoints tracks = [] := List.isEmpty_iff.mp hp
        have hing : ingest (.parsed tracks) = .error .emptyTrack := by
          unfold ingest
          simp [htf, hp]
        refine ⟨?_, ?_, ?_⟩
        · rw [hing]
          simp [ht']
        · rw [hing]
          constructor
          · intro _
            exact ⟨tracks, rfl, ht', hp'⟩
          · intro _
            rfl
        · intro pts
          rw [hing]
          constructor
          · intro h
            exact absurd h (by simp)
          · rintro ⟨tracks', heq, -, hcoll, hne⟩
            injection heq with heq'
            subst heq'
            exact absurd (hcoll.symm.trans hp') hne
      · have hp' : collectTrackPoints tracks ≠ [] := by
          simpa [List.isEmpty_iff] using hp
        have hpf : (collectTrackPoints tracks).isEmpty = false := by simpa using hp
        have hing : ingest (.parsed tracks) = .ok (collectTrackPoints tracks) := by
          unfold ingest
          simp [htf, hpf]
        refine ⟨?_, ?_, ?_⟩
        · rw [hing]
          simp [ht']
        · rw [hing]
          constructor
          · intro h
            exact absurd h (by simp)
          · rintro ⟨tracks', heq, -, hcoll⟩
            injection heq with heq'
            subst heq'
            exact absurd hcoll hp'
        · intro pts
          rw [hing]
          constructor
          · intro h
            injection h with h'
            exact ⟨tracks, rfl, ht', h', h' ▸ hp'⟩
          · rintro ⟨tracks', heq, -, hcoll, -⟩
            injection heq with heq'
            subst heq'
            rw [hcoll]

/-- The smoothed series exactly as the claim's words describe it: the
truncated centered moving average applied unconditionally.  The
implementation (`_smooth_data`) instead returns data shorter than the
window unsmoothed; this definition exists only to exhibit the divergence. -/
def specSmoothedElevations (data : List ℚ) (window : ℕ) : List ℚ :=
  (List.range data.length).map (fun i =>
    let start_idx := i - window / 2
    let end_idx := min data.length (i + window / 2 + 1)
    let window_data := (data.drop start_idx).take (end_idx - start_idx)
    window_data.sum / window_data.length)

/-- C6 counterexample: on a 3-point track (shorter than the default window
5) the stored grades are computed from the raw elevations (±125/33 %),
while the claim's formula over the truncated centered moving average would
give grade 0 (the 3-point truncated windows all average to 100/3). -/
theorem short_track_smoothing_counterexample :
    ((calculate_gradients c6ExamplePts 5).map (·.gradient_percent) =
      [none, some (125/33), some (-125/33)]) ∧
    ((specSmoothedElevations (c6ExamplePts.map (·.elevation_ft)) 5).getD 1 0 -
        (specSmoothedElevations (c6ExamplePts.map (·.elevation_ft)) 5).getD 0 0) /
      ((1/2) * 5280) * 100 = 0 ∧
    ((125:ℚ)/33 ≠ 0) := by
  refine ⟨?_, ?_, by norm_num⟩
  · norm_num [calculate_gradients, gradientElevations, smooth_data, c6ExamplePts,
      mkPt, List.range_succ, List.getD]
  · norm_num [specSmoothedElevations, c6ExamplePts, mkPt, List.range_succ,
      List.getD]

/-- C6 (amended): for every point list and index `i ≥ 1` within range, a
positive distance difference stores exactly the claimed grade formula over
the elevation series the code actually uses (smoothed only when the series
reaches the window length, raw otherwise), and a non-positive distance
difference leaves the point's gradient unchanged — so the division is
guarded for every input. -/
theorem gradient_formula (pts : List GPSPoint) (window : ℕ) (i : ℕ)
    (h1 : 1 ≤ i) (h2 : i < pts.length) :
    (0 < (pts.getD i default).distance_miles -
        (pts.getD (i-1) default).distance_miles →
      ((calculate_gradients pts window).getD i default).gradient_percent =
        some (((gradientElevations pts window).getD i 0 -
            (gradientElevations pts window).getD (i-1) 0) /
          (((pts.getD i default).distance_miles -
            (pts.getD (i-1) default).distance_miles) * 5280) * 100)) ∧
    (¬ (0 < (pts.getD i default).distance_miles -
          (pts.getD (i-1) default).distance_miles) →
      ((calculate_gradients pts window).getD i default).gradient_percent =
        (pts.getD i default).gradient_percent) := by
  have hlen : ¬ (pts.length < 2) := by omega
  have hmap : ∀ (f : ℕ → GPSPoint),
      (((List.range pts.length).map f).getD i default) = f i := by
    intro f
    rw [List.getD_eq_getElem?_getD, List.getElem?_map, List.getElem?_range h2]
    rfl
  unfold calculate_gradients
  rw [if_neg hlen]
  dsimp only
  rw [hmap]
  rw [if_neg (by omega : ¬ i = 0)]
  constructor
  · intro hdd
    rw [if_pos hdd]
  · intro hdd
    rw [if_neg hdd]

/-- Witness for C6 at a concrete 6-point track and index 1. -/
theorem gradient_formula_witness :
    ((calculate_gradients c6WitnessPts 5).getD 1 default).gradient_percent =
      some (((gradientElevations c6WitnessPts 5).getD 1 0 -
          (gradientElevations c6WitnessPts 5).getD 0 0) /
        (((c6WitnessPts.getD 1 default).distance_miles -
          (c6WitnessPts.getD 0 default).distance_miles) * 5280) * 100) :=
  (gradient_formula c6WitnessPts 5 1 (by norm_num) (by norm_num [c6WitnessPts])).1
    (by norm_num [c6WitnessPts, mkPt, List.getD])

/-- A hand-built climb with a negative average grade (never produced by the
climb detector, but accepted by `calculate_difficulty`). -/
def badClimb : ClimbSegment :=
  { start_mile := 0, length_miles := 1, avg_grade := -100, max_grade := 0,
    elevation_gain_ft := 0 }

/-- A course containing `badClimb`. -/
def badCourse : CourseProfile :=
  { name := "Bad", bike_distance_miles := 10, bike_elevation_gain_ft := 0,
    key_climbs := [badClimb], technical_sections := [] }

/-- C7 counterexample: `_calculate_overall_rating` caps the rating at 10
but never clamps it below, so a profile whose climb carries a negative
average grade is rated -23.5, far below the claimed lower bound 1.0. -/
theorem rating_below_one_counterexample :
    (calculate_difficulty zeroStdev badCourse).overall_rating = -47/2 ∧
    ¬ ((1:ℚ) ≤ -47/2) := by
  constructor
  · have hclu : analyze_climb_clustering zeroStdev badCourse = 0 := by
      unfold analyze_climb_clustering
      rw [if_neg (by norm_num [badCourse])]
      dsimp only
      rw [if_pos (by rw [List.length_mergeSort]; norm_num [badCourse])]
    show calculate_overall_rating (calculate_elevation_intensity badCourse)
        (analyze_gradient_distribution zeroStdev badCourse)
        (analyze_climb_clustering zeroStdev badCourse)
        (calculate_technical_difficulty badCourse) badCourse.altitude_ft = -47/2
    rw [hclu]
    norm_num [calculate_elevation_intensity, analyze_gradient_distribution,
      courseGradients, calculate_technical_difficulty, climbTechFactors,
      badCourse, badClimb, listMean, listMax, calculate_overall_rating,
      preRating, intensityPoints, altitudePoints, pyRound1, roundHalfEven]
  · norm_num

/-- C7 (amended): the overall rating never exceeds 10; and it is at least 1
for every course with positive distance whose climbs all have nonnegative
average grade and length (as every detector-emitted climb does), given any
nonnegative stand-in for `statistics.stdev`.  Without those hypotheses the
lower bound fails (see the counterexample). -/
theorem overall_rating_bounds (stdev : List ℚ → ℚ) (course : CourseProfile) :
    (calculate_difficulty stdev course).overall_rating ≤ 10 ∧
    ((∀ l, 0 ≤ stdev l) → 0 < course.bike_distance_miles →
      (∀ climb ∈ course.key_climbs, 0 ≤ climb.avg_grade ∧ 0 ≤ climb.length_miles) →
      1 ≤ (calculate_difficulty stdev course).overall_rating) := by
  constructor
  · exact min_le_left 10 _
  · intro hstdev hdist hclimbs
    have hstats := gradient_stats_nonneg stdev course (fun c hc => (hclimbs c hc).1)
    have hclu0 : 0 ≤ analyze_climb_clustering stdev course :=
      analyze_climb_clustering_nonneg stdev course hstdev hdist
        (fun c hc => (hclimbs c hc).2)
    have hte0 := (calculate_technical_difficulty_bounds course).1
    have hip := half_le_intensityPoints (calculate_elevation_intensity course)
    have halt := altitudePoints_nonneg course.altitude_ft
    have hg0 : 0 ≤ min 2 ((analyze_gradient_distribution stdev course).avg / 5) :=
      le_min (by norm_num) (div_nonneg hstats.1 (by norm_num))
    have hm0 : 0 ≤ min 1 ((analyze_gradient_distribution stdev course).max / 20) :=
      le_min (by norm_num) (div_nonneg hstats.2 (by norm_num))
    have hpre : 3/2 ≤ preRating (calculate_elevation_intensity course)
        (analyze_gradient_distribution stdev course)
        (analyze_climb_clustering stdev course)
        (calculate_technical_difficulty course) course.altitude_ft := by
      unfold preRating
      linarith
    have h15 : (((15:ℤ)) : ℚ) ≤ 10 * preRating (calculate_elevation_intensity course)
        (analyze_gradient_distribution stdev course)
        (analyze_climb_clustering stdev course)
        (calculate_technical_difficulty course) course.altitude_ft := by
      push_cast
      linarith
    have hrhe := int_le_roundHalfEven h15
    have hrheq : (15:ℚ) ≤ ((roundHalfEven (10 * preRating
        (calculate_elevation_intensity course)
        (analyze_gradient_distribution stdev course)
        (analyze_climb_clustering stdev course)
        (calculate_technical_difficulty course) course.altitude_ft) : ℤ) : ℚ) := by
      exact_mod_cast hrhe
    show 1 ≤ calculate_overall_rating (calculate_elevation_intensity course)
        (analyze_gradient_distribution stdev course)
        (analyze_climb_clustering stdev course)
        (calculate_technical_difficulty course) course.altitude_ft
    unfold calculate_overall_rating pyRound1
    apply le_min (by norm_num)
    linarith

/-- Witness for C7 at a concrete course. -/
theorem overall_rating_bounds_witness :
    (calculate_difficulty zeroStdev flatCourse).overall_rating ≤ 10 ∧
    1 ≤ (calculate_difficulty zeroStdev flatCourse).overall_rating :=
  ⟨(overall_rating_bounds zeroStdev flatCourse).1,
   (overall_rating_bounds zeroStdev flatCourse).2 (fun _ => le_refl 0)
     (by norm_num [flatCourse]) (by simp [flatCourse])⟩

/-- C8: for a nonempty raw track the quality score equals
`max 0 (100 - missing_ratio*50 - validation_ratio*20)` (with the default
penalties; when there are no validation errors the second term is zero and
the code skips it), and for every input — including an all-missing-elevation
track — the score stays within `[0, 100]`. -/
theorem quality_score_formula_and_bounds (gps_points : List GPSPoint)
    (track_points : List RawTrackPoint) :
    (track_points ≠ [] →
      (generate_metadata defaultConfig gps_points track_points).data_quality_score =
        max 0 (100 -
          ((track_points.filter (·.elevation.isNone)).length : ℚ) /
            track_points.length * 50 -
          ((validate_coordinates defaultConfig gps_points
              track_points).total_validation_errors : ℚ) /
            track_points.length * 20)) ∧
    0 ≤ (generate_metadata defaultConfig gps_points track_points).data_quality_score ∧
    (generate_metadata defaultConfig gps_points track_points).data_quality_score ≤ 100 := by
  by_cases hempty : track_points.isEmpty
  · have he : track_points = [] := List.isEmpty_iff.mp hempty
    subst he
    have hval : (generate_metadata defaultConfig gps_points
        []).data_quality_score = 100 := by
      unfold generate_metadata
      dsimp only
      rw [if_pos hempty]
    refine ⟨fun h => absurd rfl h, ?_, ?_⟩
    · rw [hval]; norm_num
    · rw [hval]
  · have hne : track_points ≠ [] := by simpa [List.isEmpty_iff] using hempty
    have hn : 0 < (track_points.length : ℚ) := by
      have := List.length_pos.mpr hne
      exact_mod_cast this
    have hm0 : 0 ≤ ((track_points.filter (·.elevation.isNone)).length : ℚ) := by
      positivity
    have hv0 : 0 ≤ ((validate_coordinates defaultConfig gps_points
        track_points).total_validation_errors : ℚ) := by positivity
    have hkey : (generate_metadata defaultConfig gps_points
        track_points).data_quality_score =
        max 0 (100 -
          ((track_points.filter (·.elevation.isNone)).length : ℚ) /
            track_points.length * 50 -
          ((validate_coordinates defaultConfig gps_points
              track_points).total_validation_errors : ℚ) /
            track_points.length * 20) := by
      unfold generate_metadata
      dsimp only
      rw [if_neg hempty]
      by_cases herr : 0 < (validate_coordinates defaultConfig gps_points
          track_points).total_validation_errors
      · rw [if_pos herr]
        norm_num [defaultConfig]
      · rw [if_neg herr]
        have hz : ((validate_coordinates defaultConfig gps_points
            track_points).total_validation_errors : ℚ) = 0 := by
          have : (validate_coordinates defaultConfig gps_points
              track_points).total_validation_errors = 0 := by omega
          rw [this]
          norm_num
        rw [hz]
        norm_num [defaultConfig]
    refine ⟨fun _ => hkey, ?_, ?_⟩
    · rw [hkey]
      exact le_max_left 0 _
    · rw [hkey]
      apply max_le (by norm_num)
      have h50 : 0 ≤ ((track_points.filter (·.elevation.isNone)).length : ℚ) /
          track_points.length * 50 := by positivity
      have h20 : 0 ≤ ((validate_coordinates defaultConfig gps_points
          track_points).total_validation_errors : ℚ) /
          track_points.length * 20 := by positivity
      linarith

/-- Witness for C8 at a concrete 2-point all-missing-elevation track. -/
theorem quality_score_formula_and_bounds_witness :
    ((generate_metadata defaultConfig [mkPt 0 0 none, mkPt (1/5) 0 none]
        [⟨45, 6, none⟩, ⟨45, 6, none⟩]).data_quality_score =
      max 0 (100 -
        (((([⟨45, 6, none⟩, ⟨45, 6, none⟩] : List RawTrackPoint).filter
            (·.elevation.isNone)).length : ℚ) / 2) * 50 -
        (((validate_coordinates defaultConfig [mkPt 0 0 none, mkPt (1/5) 0 none]
            [⟨45, 6, none⟩, ⟨45, 6, none⟩]).total_validation_errors : ℚ) / 2) * 20)) ∧
    0 ≤ (generate_metadata defaultConfig [mkPt 0 0 none, mkPt (1/5) 0 none]
        [⟨45, 6, none⟩, ⟨45, 6, none⟩]).data_quality_score :=
  ⟨(quality_score_formula_and_bounds [mkPt 0 0 none, mkPt (1/5) 0 none]
      [⟨45, 6, none⟩, ⟨45, 6, none⟩]).1 (by simp),
   (quality_score_formula_and_bounds [mkPt 0 0 none, mkPt (1/5) 0 none]
      [⟨45, 6, none⟩, ⟨45, 6, none⟩]).2.1⟩

/-- A profile on which `_validate_gps_point_quality` divides by a zero
course distance (metadata reports a distance jump): the modelled
`ZeroDivisionError`. -/
def crashCourse : CourseProfile :=
  { name := "Crash", bike_distance_miles := 0, bike_elevation_gain_ft := 0,
    key_climbs := [], technical_sections := [],
    gps_metadata := some { large_distance_jumps := 1 },
    elevation_profile := (List.range 10).map (fun k => mkPt k 0 none) }

/-- C9: `validate_course` never raises: its report always consists of every
check's contribution in order (all eight checks run), and a check that
raises contributes exactly one synthetic critical failure named after it,
leaving every other check's results untouched. -/
theorem validator_exception_isolation (course : CourseProfile) (j : ℕ)
    (hj : j < validationChecks.length) (e : Unit)
    (herr : (validationChecks.get ⟨j, hj⟩).2 course = .error e) :
    (validate_course course).validation_results =
      (validationChecks.map (fun chk => runCheckCaught chk course)).flatten ∧
    (validationChecks.map (fun chk => runCheckCaught chk course)).length = 8 ∧
    runCheckCaught (validationChecks.get ⟨j, hj⟩) course =
      [⟨(validationChecks.get ⟨j, hj⟩).1, false, "critical"⟩] := by
  refine ⟨rfl, rfl, ?_⟩
  unfold runCheckCaught
  rw [herr]

/-- Witness for C9: on `crashCourse` the sixth check
(`_validate_gps_point_quality`) raises and is converted into a single
synthetic critical failure while the full report still contains all eight
checks' contributions. -/
theorem validator_exception_isolation_witness :
    (validate_course crashCourse).validation_results =
      (validationChecks.map (fun chk => runCheckCaught chk crashCourse)).flatten ∧
    (validationChecks.map (fun chk => runCheckCaught chk crashCourse)).length = 8 ∧
    runCheckCaught (validationChecks.get ⟨5, by norm_num [validationChecks]⟩)
        crashCourse =
      [⟨"_validate_gps_point_quality", false, "critical"⟩] :=
  validator_exception_isolation crashCourse 5 (by norm_num [validationChecks]) ()
    (by rfl)

/-- C10: `compare_courses` labels the second course harder on an exact
rating tie (`course1.name` is chosen only under a strict `>`). -/
theorem compare_courses_tie_goes_to_second (stdev : List ℚ → ℚ)
    (course1 course2 : CourseProfile) :
    ((calculate_difficulty stdev course1).overall_rating =
        (calculate_difficulty stdev course2).overall_rating →
      (compare_courses stdev course1 course2).harder_course = course2.name) ∧
    ((compare_courses stdev course1 course2).harder_course ≠ course2.name →
      (calculate_difficulty stdev course2).overall_rating <
        (calculate_difficulty stdev course1).overall_rating) := by
  constructor
  · intro h
    unfold compare_courses
    dsimp only
    rw [if_neg]
    rw [h]
    exact lt_irrefl _
  · intro h
    by_contra hlt
    apply h
    unfold compare_courses
    dsimp only
    rw [if_neg hlt]

/-- Witness for C10 at two concrete equally-rated courses. -/
theorem compare_courses_tie_goes_to_second_witness :
    (compare_courses zeroStdev zeroCourse zeroCourseB).harder_course = "Zero B" :=
  (compare_courses_tie_goes_to_second zeroStdev zeroCourse zeroCourseB).1
    (by norm_num [calculate_difficulty, zeroCourse, zeroCourseB, zeroStdev,
      calculate_elevation_intensity, analyze_gradient_distribution, courseGradients,
      analyze_climb_clustering, calculate_technical_difficulty,
      calculate_overall_rating, preRating, intensityPoints, altitudePoints])

end RaceStrategy
